import Mathlib

/-!
Verification of the buem 5R1C building-energy model core.

This file embeds, over exact rational arithmetic, the parts of the
repository that the verified properties are about:

* envelope parsing and aggregate conductances
  (`ModelBUEM._initEnvelop` in `src/buem/thermal/model_buem.py`),
* the 5R1C thermal-class lookup and solar-gain profile construction
  (`ModelBUEM._init5R1C`),
* the guard of the plane-of-array irradiance computation
  (`ModelBUEM._calcRadiation`),
* the time-stepped equality and inequality constraint system
  (`ModelBUEM._addConstraints`) together with the two solver modes of
  `ModelBUEM.sim_model`,
* the configuration validator (`validate_cfg` in
  `src/buem/config/validator.py`) and the validation gate of
  `run_model` in `src/buem/main.py`.

Floating-point numbers of the source are modelled as rationals; the
claims proved here are about the algebraic structure of the computations,
not about rounding.
-/

namespace Buem

/-! ## Envelope parsing (`ModelBUEM._initEnvelop`, structured branch)

An element of the structured component tree.  The source reads
`float(e.get("area", 0.0))`, so a missing area parses to `0.0`. -/

structure EnvElement where
  id : String
  area : Option ℚ
deriving DecidableEq, Repr

/-- Parsed area of an element: `float(e.get("area", 0.0))`. -/
def parsedArea (e : EnvElement) : ℚ := (e.area).getD 0

/-- A component of the structured tree: optional component-level U-value,
optional transmission factor `b_transmission` (default `1.0`) and the
element list. -/
structure EnvComponent where
  U : Option ℚ
  b_transmission : Option ℚ
  elements : List EnvElement
deriving DecidableEq, Repr

/-- Total area of a component, as the source accumulates it:
`total_area = sum(e["area"] for e in parsed)`. -/
def compTotalArea (elems : List EnvElement) : ℚ :=
  elems.foldl (fun acc e => acc + parsedArea e) 0

/-- Aggregate conductance of a structured component, from
`_initEnvelop`:
`self.bH[comp] = {"Original": self.bU[comp] * total_area * b_trans / 1000.0}`
where `self.bU[comp] = float(comp_data.get("U", self.cfg.get("U_<comp>", 0.0)))`
and `b_trans = float(comp_data.get("b_transmission", 1.0))`.
`cfgU` is the legacy `U_<comp>` fallback value of the cfg dict. -/
def compAggH (c : EnvComponent) (cfgU : Option ℚ) : ℚ :=
  (c.U.getD (cfgU.getD 0)) * compTotalArea c.elements * ((c.b_transmission).getD 1) / 1000

lemma compTotalArea_cons (e : EnvElement) (l : List EnvElement) :
    compTotalArea (e :: l) = parsedArea e + compTotalArea l := by
  have h : ∀ (l : List EnvElement) (a : ℚ),
      l.foldl (fun acc x => acc + parsedArea x) a = a + l.foldl (fun acc x => acc + parsedArea x) 0 := by
    intro l
    induction l with
    | nil => intro a; simp
    | cons x xs ih =>
      intro a
      simp only [List.foldl_cons]
      rw [ih (a + parsedArea x), ih (0 + parsedArea x)]
      ring
  simp only [compTotalArea, List.foldl_cons]
  rw [h l (0 + parsedArea e)]
  ring

lemma compTotalArea_eq_sum (l : List EnvElement) :
    compTotalArea l = (l.map parsedArea).sum := by
  induction l with
  | nil => rfl
  | cons e xs ih => rw [compTotalArea_cons, ih, List.map_cons, List.sum_cons]

lemma compTotalArea_perm (l l' : List EnvElement) (h : l.Perm l') :
    compTotalArea l = compTotalArea l' := by
  rw [compTotalArea_eq_sum, compTotalArea_eq_sum]
  exact List.Perm.sum_eq (List.Perm.map parsedArea h)

/-! ## Legacy flat-key envelope parsing (`ModelBUEM._initEnvelop`, else branch)

The legacy branch scans numbered keys `A_<Comp>_1`, `A_<Comp>_2`, ... while
they are present; on loop exit the Python variable `key` still holds the
first absent numbered key.  The fallback branch
`if not found and f"A_{comp}" in self.cfg:` then appends an element with
`area = float(self.cfg.get(key, 100.0))` — reading the absent numbered
key, not the flat `A_<Comp>` key. -/

structure LegacyElem where
  id : String
  area : ℚ
deriving DecidableEq, Repr

/-- Lookup of a flat cfg key (Python `self.cfg.get(key)` on the flat dict). -/
def lookupQ (cfg : List (String × ℚ)) (k : String) : Option ℚ :=
  (cfg.find? (fun p => p.1 == k)).map (fun p => p.2)

/-- The numbered area key `A_<comp>_<i>`. -/
def areaKey (comp : String) (i : Nat) : String :=
  "A_" ++ comp ++ "_" ++ toString i

/-- The `while True` scan over `A_<comp>_1, A_<comp>_2, ...`: collects the
numbered elements and returns the exit index (the first `i` whose key is
absent).  `fuel` bounds the recursion; `cfg.length + 1` steps always
suffice because the scan consumes one distinct present key per step. -/
def legacyNumbered (cfg : List (String × ℚ)) (comp : String) :
    Nat → Nat → List LegacyElem × Nat
  | i, 0 => ([], i)
  | i, fuel + 1 =>
    match lookupQ cfg (areaKey comp i) with
    | some v =>
      let rest := legacyNumbered cfg comp (i + 1) fuel
      (⟨comp ++ "_" ++ toString i, v⟩ :: rest.1, rest.2)
    | none => ([], i)

/-- Element list of one component in the legacy branch of `_initEnvelop`,
including the `A_<comp>` fallback that reads `cfg.get(key, 100.0)` with
`key` equal to the first absent numbered key. -/
def legacyElems (cfg : List (String × ℚ)) (comp : String) : List LegacyElem :=
  let scan := legacyNumbered cfg comp 1 (cfg.length + 1)
  if scan.1 = [] ∧ lookupQ cfg ("A_" ++ comp) ≠ none then
    [⟨comp ++ "_1", (lookupQ cfg (areaKey comp scan.2)).getD 100⟩]
  else
    scan.1

/-! ## Configuration validator (`validate_cfg` in `src/buem/config/validator.py`)

Elements, components and the cfg as the validator sees them: every field
the Python code probes with `.get` is an `Option`.  Numeric values are
rationals, so the `_is_number` guards of the source are vacuous here and
only the positivity checks remain. -/

structure VElement where
  id : Option String
  area : Option ℚ
  U : Option ℚ
deriving DecidableEq, Repr

structure VComponent where
  U : Option ℚ
  elements : List VElement
deriving DecidableEq, Repr

/-- Configuration as seen by the validator and the pipeline gate:
`components` (a dict when structured input is used), the flat legacy
keys, the thermal-class label and the weather series length. -/
structure VCfg where
  components : Option (List (String × VComponent))
  flat : List (String × ℚ)
  thermalClass : String
  weatherLen : Option Nat
deriving DecidableEq, Repr

/-- `comps.get(comp)` on the structured tree. -/
def lookupComp (comps : List (String × VComponent)) (name : String) :
    Option VComponent :=
  (comps.find? (fun p => p.1 == name)).map (fun p => p.2)

/-- Per-element checks of the validator inner loop; returns the issues of
this element and the updated `seen_ids` set.  Mirrors the order of the
source: id (with the duplicate check), then area, then per-element U.
The source adds `eid` to `seen_ids` even when it is a duplicate. -/
def elemIssues (comp : String) (idx : Nat) (e : VElement) (seen : List String) :
    List String × List String :=
  let idPart :=
    match e.id with
    | none => (["components." ++ comp ++ ".elements[" ++ toString idx ++ "].id missing"], seen)
    | some eid =>
      ((if eid ∈ seen then ["duplicate element id " ++ eid ++ " in components"] else []),
        eid :: seen)
  let areaPart :=
    match e.area with
    | none => ["components." ++ comp ++ ".elements[" ++ toString idx ++ "].area missing"]
    | some a =>
      if a ≤ 0 then ["components." ++ comp ++ ".elements[" ++ toString idx ++ "].area must be > 0"]
      else []
  let uPart :=
    match e.U with
    | none => ["components." ++ comp ++ ".elements[" ++ toString idx ++ "].U missing"]
    | some u =>
      if u ≤ 0 then ["components." ++ comp ++ ".elements[" ++ toString idx ++ "].U must be positive number"]
      else []
  (idPart.1 ++ areaPart ++ uPart, idPart.2)

/-- The `for idx, e in enumerate(elems)` loop, threading `seen_ids`. -/
def elemsLoop (comp : String) :
    List VElement → Nat → List String → List String × List String
  | [], _, seen => ([], seen)
  | e :: rest, idx, seen =>
    let this := elemIssues comp idx e seen
    let tail := elemsLoop comp rest (idx + 1) this.2
    (this.1 ++ tail.1, tail.2)

/-- One iteration of the validator component loop: missing component,
component-level U present (only positivity is checked, elements are
skipped), or U absent (empty element list, else the element loop). -/
def compCheck (comps : List (String × VComponent))
    (st : List String × List String) (name : String) :
    List String × List String :=
  match lookupComp comps name with
  | none => (st.1 ++ ["components." ++ name ++ " missing"], st.2)
  | some c =>
    match c.U with
    | some u =>
      (st.1 ++ (if u ≤ 0 then ["components." ++ name ++ ".U must be positive number"] else []),
        st.2)
    | none =>
      if c.elements.isEmpty then
        (st.1 ++ ["components." ++ name ++ ".U missing and no elements with U"], st.2)
      else
        let r := elemsLoop name c.elements 0 st.2
        (st.1 ++ r.1, r.2)

/-- The fixed component order of the validator loop. -/
def validatedComps : List String := ["Walls", "Windows", "Roof", "Floor", "Doors"]

/-- Legacy keys checked when no structured tree is provided. -/
def legacyKeys : List String :=
  ["U_Window", "U_Wall_1", "U_Roof_1", "U_Floor_1", "U_Door_1"]

/-- Legacy branch of the validator. -/
def legacyIssues (flat : List (String × ℚ)) : List String :=
  legacyKeys.foldl
    (fun acc key =>
      match lookupQ flat key with
      | none => acc ++ ["legacy key " ++ key ++ " missing"]
      | some v => acc ++ (if v ≤ 0 then [key ++ " must be positive number"] else []))
    []

/-- Weather-length check at the end of the validator. -/
def weatherIssues (wlen : Option Nat) : List String :=
  match wlen with
  | none => []
  | some n => if n = 0 then ["weather timeseries appears empty"] else []

/-- Embedding of `validate_cfg`: returns the issue list, empty when the
configuration passes.  Note that the function never reads
`cfg.thermalClass`. -/
def validate_cfg (cfg : VCfg) : List String :=
  (match cfg.components with
   | some comps => (validatedComps.foldl (compCheck comps) ([], [])).1
   | none => legacyIssues cfg.flat)
  ++ weatherIssues cfg.weatherLen

/-- Validation gate of `run_model` in `src/buem/main.py` (with the default
`fill_missing_components=False`): a non-empty issue list raises
`ValueError` before any `ModelBUEM` instance is built. -/
def run_model_gate (cfg : VCfg) : Except String Unit :=
  let issues := validate_cfg cfg
  if issues.isEmpty then Except.ok ()
  else Except.error ("Configuration validation failed: " ++ String.intercalate "; " issues)

/-! ## Thermal-class lookup (`ModelBUEM._init5R1C`)

The three dictionaries of `_init5R1C` and the `.get(thermalClass, default)`
reads that derive `A_m` and `c_m`. -/

def bClass_f_lb : List (String × ℚ) :=
  [("very light", 0), ("light", 95), ("medium", 137.5), ("heavy", 212.5), ("very heavy", 313.5)]

def bClass_f_ub : List (String × ℚ) :=
  [("very light", 95), ("light", 137.5), ("medium", 212.5), ("heavy", 313.5), ("very heavy", 627)]

def bClass_f_a : List (String × ℚ) :=
  [("very light", 2.5), ("light", 2.5), ("medium", 2.5), ("heavy", 3), ("very heavy", 3.5)]

/-- Python `dict.get(key, default)` on the class tables. -/
def classGetD (table : List (String × ℚ)) (tc : String) (d : ℚ) : ℚ :=
  ((table.find? (fun p => p.1 == tc)).map (fun p => p.2)).getD d

/-- Effective mass area: `self.bA_m = self.bA_f * bClass_f_a.get(thermalClass, 2.5)`. -/
def bA_m (A_f : ℚ) (tc : String) : ℚ := A_f * classGetD bClass_f_a tc 2.5

/-- Specific capacity default written into the cfg when `c_m` is absent:
`(bClass_f_lb.get(tc, 137.5) + bClass_f_ub.get(tc, 137.5)) / 2.0`. -/
def c_m_default (tc : String) : ℚ :=
  (classGetD bClass_f_lb tc 137.5 + classGetD bClass_f_ub tc 137.5) / 2

/-- Internal heat capacity: `self.bC_m = self.bA_f * float(self.cfg["c_m"]) / 3600.0`. -/
def bC_m (A_f c_m : ℚ) : ℚ := A_f * c_m / 3600

/-! ## Plane-of-array irradiance and solar-gain profiles
(`ModelBUEM._calcRadiation` and `ModelBUEM._init5R1C`)

Constants from `ModelBUEM.CONST`. -/

def h_r : ℚ := 0.9 * 5.0 / 1000.0
def R_se : ℚ := 0.04 * 1000
def delta_T_sky : ℚ := 11.0
def alphaOpaque : ℚ := 0.6

/-- Modelled from the spec: the plane-of-array transposition is computed by
the pvlib function `get_total_irradiance` with `model="perez"`, which is outside this
repository.  Per the spec it decomposes the direct, diffuse and global
horizontal irradiance series into plane-of-array irradiance; every term of
a Perez-type transposition (beam projection, sky-diffuse, ground-reflected)
carries exactly one of the three inputs as a factor, with geometry- and
sky-condition-dependent coefficients.  The coefficients are abstracted as
per-hour parameters `cB`, `cS`, `cG`; the `/ 1000.0` is the W-to-kW
conversion of `_calcRadiation` (`df[eid] = total["poa_global"].fillna(0) / 1000.0`).
The GHI fallback of `_init5R1C` (`poa = weather["GHI"] / 1000.0`) is the
instance `cB = cS = 0`, `cG = 1`. -/
def elemPoa (cB cS cG : ℕ → ℚ) (dni dhi ghi : ℕ → ℚ) (i : ℕ) : ℚ :=
  (cB i * dni i + cS i * dhi i + cG i * ghi i) / 1000

/-- A window element as used by the solar-gain builder: area, glazing
factor `g_gl`, and the transposition coefficients of the surface whose
irradiance series the window ends up using (its referenced parent surface,
its own series, or the GHI fallback). -/
structure WinElem where
  area : ℚ
  g : ℚ
  cB : ℕ → ℚ
  cS : ℕ → ℚ
  cG : ℕ → ℚ

/-- An opaque (wall or roof) element: area and transposition coefficients. -/
structure OpaqueElem where
  area : ℚ
  cB : ℕ → ℚ
  cS : ℕ → ℚ
  cG : ℕ → ℚ

/-- Configuration slice consumed by the solar-gain builder of `_init5R1C`. -/
structure SolCfg where
  windows : List WinElem
  walls : List OpaqueElem
  roofs : List OpaqueElem
  H_windows : ℚ
  U_win : ℚ
  F_f : ℚ
  F_w : ℚ
  F_sh_vert : ℚ
  F_sh_hor : ℚ

/-- Thermal sky loss for windows, from `_init5R1C`: uses the aggregated
window conductance when positive, else the area-based fallback. -/
def thermal_rad_win (cfg : SolCfg) : ℚ :=
  if 0 < cfg.H_windows then
    cfg.H_windows * h_r * R_se * delta_T_sky
  else
    (cfg.windows.map (fun w => w.area)).sum * h_r * (cfg.U_win / 1000) * R_se * delta_T_sky

/-- Window solar-gain series:
`qwin = poa * area * g_gl * (1.0 - F_f) * F_w`, summed over windows, minus
the constant thermal sky loss. -/
def bQ_sol_Windows (cfg : SolCfg) (dni dhi ghi : ℕ → ℚ) (i : ℕ) : ℚ :=
  (cfg.windows.map
    (fun w => elemPoa w.cB w.cS w.cG dni dhi ghi i * w.area * w.g * (1 - cfg.F_f) * cfg.F_w)).sum
  - thermal_rad_win cfg

/-- Wall solar-gain series: `area * alpha * F_sh_vert * poa`, summed. -/
def bQ_sol_Walls (cfg : SolCfg) (dni dhi ghi : ℕ → ℚ) (i : ℕ) : ℚ :=
  (cfg.walls.map
    (fun e => e.area * alphaOpaque * cfg.F_sh_vert * elemPoa e.cB e.cS e.cG dni dhi ghi i)).sum

/-- Roof solar-gain series: `area * alpha * F_sh_hor * poa`, summed. -/
def bQ_sol_Roof (cfg : SolCfg) (dni dhi ghi : ℕ → ℚ) (i : ℕ) : ℚ :=
  (cfg.roofs.map
    (fun e => e.area * alphaOpaque * cfg.F_sh_hor * elemPoa e.cB e.cS e.cG dni dhi ghi i)).sum

/-- Floor solar-gain series: `np.zeros(len(self.times))`. -/
def bQ_sol_Floor (_cfg : SolCfg) (_i : ℕ) : ℚ := 0

/-- Opaque solar-gain series: walls + roof + floor. -/
def bQ_sol_Opaque (cfg : SolCfg) (dni dhi ghi : ℕ → ℚ) (i : ℕ) : ℚ :=
  bQ_sol_Walls cfg dni dhi ghi i + bQ_sol_Roof cfg dni dhi ghi i + bQ_sol_Floor cfg i

/-! ## Guard of `_calcRadiation`

The weather table as probed by `_calcRadiation`; a series is present or
absent.  The guard
`if not all(k in self.cfg["weather"] for k in ("DNI", "DHI", "GHI")): raise RuntimeError(...)`
fires before any irradiance column is written. -/

structure WeatherTbl where
  T : ℕ → ℚ
  DNI : Option (ℕ → ℚ)
  DHI : Option (ℕ → ℚ)
  GHI : Option (ℕ → ℚ)

/-- Embedding of `_calcRadiation`: either the error of the missing-series
guard, or the per-element plane-of-array series (kW/m²) for the given
element coefficients. -/
def calcRadiation (w : WeatherTbl)
    (elems : List (String × ((ℕ → ℚ) × (ℕ → ℚ) × (ℕ → ℚ)))) :
    Except String (List (String × (ℕ → ℚ))) :=
  match w.DNI, w.DHI, w.GHI with
  | some dni, some dhi, some ghi =>
    Except.ok (elems.map (fun p => (p.1, fun i => elemPoa p.2.1 p.2.2.1 p.2.2.2 dni dhi ghi i)))
  | _, _, _ =>
    Except.error "Weather must include DNI, DHI and GHI series for POA calculations."

/-! ## Time-stepped constraint system (`ModelBUEM._addConstraints`)

The unknown vector has length `4 * n` with layout
`[T_air_0..T_air_(n-1), T_m_0..T_m_(n-1), T_sur_0..T_sur_(n-1), Q_HC_0..Q_HC_(n-1)]`;
a solution is modelled as a function `x : ℕ → ℚ` read at these indices. -/

def idxTair (i : ℕ) : ℕ := i
def idxTm (n i : ℕ) : ℕ := n + i
def idxTsur (n i : ℕ) : ℕ := 2 * n + i
def idxQHC (n i : ℕ) : ℕ := 3 * n + i

/-- Parameters of one assembled run: horizon length, the six aggregated
component conductances read from `self.bH`, the 5R1C scalars, the step
size, the comfort setpoint of the run, and the hourly input series
(internal gains, electric load, occupancy fractions, precomputed solar
profiles, external temperature). -/
structure SysParams where
  n : ℕ
  H_walls : ℚ
  H_roofs : ℚ
  H_floors : ℚ
  H_windows : ℚ
  H_doors : ℚ
  H_ve : ℚ
  H_is : ℚ
  H_ms : ℚ
  C_m : ℚ
  step : ℚ
  T_set : ℚ
  Q_ig : ℕ → ℚ
  elecLoad : ℕ → ℚ
  occ_nothome : ℕ → ℚ
  occ_sleeping : ℕ → ℚ
  Q_sol_win : ℕ → ℚ
  Q_sol_opaque : ℕ → ℚ
  T_e : ℕ → ℚ

/-- Total transmission:
`H_tot = H_ve + H_walls + H_roofs + H_floors + H_windows + H_doors`. -/
def H_tot (P : SysParams) : ℚ :=
  P.H_ve + P.H_walls + P.H_roofs + P.H_floors + P.H_windows + P.H_doors

/-- Internal gain injected at the air node:
`Q_ia = (Q_ig + elecLoad) * (occ * (1 - sleeping) + 0.5 * sleeping)` with
`occ = 1 - occ_nothome` and `sleeping_factor = 0.5`. -/
def Q_ia (P : SysParams) (i : ℕ) : ℚ :=
  (P.Q_ig i + P.elecLoad i) *
    ((1 - P.occ_nothome i) * (1 - P.occ_sleeping i) + (1 / 2) * P.occ_sleeping i)

/-- Right-hand-side gain of the air node: `Q_air = Q_ia + 0.5 * Q_sol_win`. -/
def Q_air (P : SysParams) (i : ℕ) : ℚ := Q_ia P i + (1 / 2) * P.Q_sol_win i

/-- Right-hand-side gain of the surface node:
`Q_surface = Q_sol_opaque + 0.5 * Q_sol_win`. -/
def Q_surface (P : SysParams) (i : ℕ) : ℚ := P.Q_sol_opaque i + (1 / 2) * P.Q_sol_win i

/-- Air-node balance row `i`:
`(H_is + H_ve) * T_air[i] - H_is * T_sur[i] - Q_HC[i] = Q_air + H_ve * T_e`. -/
def airRow (P : SysParams) (x : ℕ → ℚ) (i : ℕ) : Prop :=
  (P.H_is + P.H_ve) * x (idxTair i) - P.H_is * x (idxTsur P.n i) - x (idxQHC P.n i)
    = Q_air P i + P.H_ve * P.T_e i

/-- Surface-node balance row `i`:
`(H_is + H_ms + H_windows) * T_sur[i] - H_is * T_air[i] - H_ms * T_m[i] = Q_surface + H_windows * T_e`. -/
def surRow (P : SysParams) (x : ℕ → ℚ) (i : ℕ) : Prop :=
  (P.H_is + P.H_ms + P.H_windows) * x (idxTsur P.n i) - P.H_is * x (idxTair i)
      - P.H_ms * x (idxTm P.n i)
    = Q_surface P i + P.H_windows * P.T_e i

/-- Mass-node row `i`: the initial condition `T_m[0] = T_set` at `i = 0`,
the implicit-Euler dynamics for `0 < i < n - 1`, and the periodic closure
`-T_m[n-1] + T_m[0] = 0` at `i = n - 1`. -/
def massRow (P : SysParams) (x : ℕ → ℚ) (i : ℕ) : Prop :=
  if i = 0 then
    x (idxTm P.n 0) = P.T_set
  else if i < P.n - 1 then
    (-(P.C_m / P.step) - P.H_ms - H_tot P) * x (idxTm P.n i)
        + (P.C_m / P.step) * x (idxTm P.n (i + 1)) + P.H_ms * x (idxTsur P.n i)
      = -(H_tot P * P.T_e i)
  else
    -x (idxTm P.n i) + x (idxTm P.n 0) = 0

/-- HVAC equality row `i`, emitted only in the fixed-setpoint solve:
`Q_HC[i] + H_tot * T_air[i] = H_tot * T_set`. -/
def hvacRow (P : SysParams) (x : ℕ → ℚ) (i : ℕ) : Prop :=
  x (idxQHC P.n i) + H_tot P * x (idxTair i) = H_tot P * P.T_set

/-- Equality rows shared by both solver modes (air, surface and mass rows
for every hour). -/
def satisfiesEqCore (P : SysParams) (x : ℕ → ℚ) : Prop :=
  ∀ i, i < P.n → airRow P x i ∧ surRow P x i ∧ massRow P x i

/-- The square equality system of the fixed-setpoint (equality-only) mode:
the shared rows plus the HVAC equality for every hour.  `spsolve` returns
a vector satisfying exactly this system. -/
def satisfiesEqFixed (P : SysParams) (x : ℕ → ℚ) : Prop :=
  satisfiesEqCore P x ∧ ∀ i, i < P.n → hvacRow P x i

/-- Inequality rows of the bounded mode: `T_air ∈ [15, 30]`,
`T_sur ∈ [10, 35]`, `T_m ∈ [15, 30]` for every hour, written as the
`A_ineq x <= b_ineq` pairs the source emits. -/
def ineqRows (P : SysParams) (x : ℕ → ℚ) : Prop :=
  ∀ i, i < P.n →
    x (idxTair i) ≤ 30 ∧ -x (idxTair i) ≤ -15 ∧
    x (idxTsur P.n i) ≤ 35 ∧ -x (idxTsur P.n i) ≤ -10 ∧
    x (idxTm P.n i) ≤ 30 ∧ -x (idxTm P.n i) ≤ -15

/-- Feasible points of the bounded/optimization mode:
`A_eq x == b_eq` (shared rows only) and `A_ineq x <= b_ineq`. -/
def feasibleBounded (P : SysParams) (x : ℕ → ℚ) : Prop :=
  satisfiesEqCore P x ∧ ineqRows P x

/-- Objective of the bounded mode: `cp.Minimize(cp.sum(x_var[3*n:4*n]))`. -/
def objectiveQHC (P : SysParams) (x : ℕ → ℚ) : ℚ :=
  ∑ i ∈ Finset.range P.n, x (idxQHC P.n i)

/-- Semantics of a successful bounded solve (cvxpy status `optimal`):
the returned vector is feasible and minimizes the objective over the
feasible set. -/
def optimalBounded (P : SysParams) (x : ℕ → ℚ) : Prop :=
  feasibleBounded P x ∧ ∀ y, feasibleBounded P y → objectiveQHC P x ≤ objectiveQHC P y

/-- Comfort mode of a run. -/
inductive ComfortMode where
  | heating
  | cooling
deriving DecidableEq, Repr

/-- Setpoint selection of `sim_model`: `T_set = bT_comf_lb` for heating,
`T_set = bT_comf_ub` for cooling. -/
def setpointOf (mode : ComfortMode) (lb ub : ℚ) : ℚ :=
  match mode with
  | ComfortMode.heating => lb
  | ComfortMode.cooling => ub

instance (P : SysParams) (x : ℕ → ℚ) (i : ℕ) : Decidable (airRow P x i) := by
  unfold airRow; infer_instance

instance (P : SysParams) (x : ℕ → ℚ) (i : ℕ) : Decidable (surRow P x i) := by
  unfold surRow; infer_instance

instance (P : SysParams) (x : ℕ → ℚ) (i : ℕ) : Decidable (massRow P x i) := by
  unfold massRow; infer_instance

instance (P : SysParams) (x : ℕ → ℚ) (i : ℕ) : Decidable (hvacRow P x i) := by
  unfold hvacRow; infer_instance

instance (P : SysParams) (x : ℕ → ℚ) : Decidable (satisfiesEqCore P x) := by
  unfold satisfiesEqCore; infer_instance

instance (P : SysParams) (x : ℕ → ℚ) : Decidable (satisfiesEqFixed P x) := by
  unfold satisfiesEqFixed; infer_instance

instance (P : SysParams) (x : ℕ → ℚ) : Decidable (ineqRows P x) := by
  unfold ineqRows; infer_instance

instance (P : SysParams) (x : ℕ → ℚ) : Decidable (feasibleBounded P x) := by
  unfold feasibleBounded; infer_instance

/-! ## Theorems -/

/-- C1: in the fixed-setpoint (equality-only) mode over `N >= 2` hourly
timesteps, any solution of the assembled square equality system — in
particular the vector `spsolve` returns in `sim_model` — satisfies
`Q_HC[i] = H_tot * (T_set - T_air[i])` for every hour `i`, where `H_tot`
is the sum of all component conductances including ventilation and
`T_set` is the setpoint of the chosen comfort mode. -/
theorem fixed_setpoint_hvac_balance (mode : ComfortMode) (lb ub : ℚ)
    (P : SysParams) (x : ℕ → ℚ)
    (_hn : 2 ≤ P.n) (hset : P.T_set = setpointOf mode lb ub)
    (hx : satisfiesEqFixed P x) :
    ∀ i, i < P.n →
      x (idxQHC P.n i) = H_tot P * (setpointOf mode lb ub - x (idxTair i)) := by
  intro i hi
  have h := hx.2 i hi
  unfold hvacRow at h
  rw [← hset, mul_sub]
  linarith

/-- Concrete run for the C1 witness: two hours, a single wall conductance
of 1 kW/K, all other conductances and gain series zero, heating setpoint
21 °C. -/
def P1 : SysParams where
  n := 2
  H_walls := 1
  H_roofs := 0
  H_floors := 0
  H_windows := 0
  H_doors := 0
  H_ve := 0
  H_is := 0
  H_ms := 0
  C_m := 1
  step := 1
  T_set := 21
  Q_ig := fun _ => 0
  elecLoad := fun _ => 0
  occ_nothome := fun _ => 0
  occ_sleeping := fun _ => 0
  Q_sol_win := fun _ => 0
  Q_sol_opaque := fun _ => 0
  T_e := fun _ => 0

/-- Solution vector of the `P1` system. -/
def x1 : ℕ → ℚ := fun k => if k < 4 then 21 else 0

theorem fixed_setpoint_hvac_balance_witness :
    satisfiesEqFixed P1 x1 ∧
      x1 (idxQHC 2 0) = H_tot P1 * (setpointOf ComfortMode.heating 21 24 - x1 (idxTair 0)) := by
  have hfeas : satisfiesEqFixed P1 x1 := by
    constructor
    · intro i hi
      have hi' : i < 2 := hi
      interval_cases i <;>
        refine ⟨?_, ?_, ?_⟩ <;>
          norm_num [airRow, surRow, massRow, Q_air, Q_ia, Q_surface, H_tot,
            idxTair, idxTm, idxTsur, idxQHC, P1, x1]
    · intro i hi
      have hi' : i < 2 := hi
      interval_cases i <;>
        norm_num [hvacRow, H_tot, idxTair, idxQHC, P1, x1]
  exact ⟨hfeas,
    fixed_setpoint_hvac_balance ComfortMode.heating 21 24 P1 x1 (by decide) rfl hfeas 0
      (by decide)⟩

/-- C3: in either solver mode the assembled equality rows contain, for
hour `N - 1`, the periodic-closure row `-T_m[N-1] + T_m[0] = 0`; hence any
solution vector has `T_m[0] = T_m[N-1]` exactly.  The fixed-setpoint
system is `satisfiesEqCore` plus the HVAC rows and the bounded system is
`satisfiesEqCore` plus inequality rows, so the hypothesis covers both
modes. -/
theorem periodic_mass_closure (P : SysParams) (x : ℕ → ℚ)
    (hn : 2 ≤ P.n) (hx : satisfiesEqCore P x) :
    x (idxTm P.n 0) = x (idxTm P.n (P.n - 1)) := by
  have h := (hx (P.n - 1) (by omega)).2.2
  unfold massRow at h
  rw [if_neg (by omega : ¬(P.n - 1 = 0)), if_neg (by omega : ¬(P.n - 1 < P.n - 1))] at h
  linarith

/-- Concrete run for the C3 witness: three hours, all conductances zero,
setpoint 19 °C. -/
def P3 : SysParams where
  n := 3
  H_walls := 0
  H_roofs := 0
  H_floors := 0
  H_windows := 0
  H_doors := 0
  H_ve := 0
  H_is := 0
  H_ms := 0
  C_m := 2
  step := 1
  T_set := 19
  Q_ig := fun _ => 0
  elecLoad := fun _ => 0
  occ_nothome := fun _ => 0
  occ_sleeping := fun _ => 0
  Q_sol_win := fun _ => 0
  Q_sol_opaque := fun _ => 0
  T_e := fun _ => 0

/-- Solution vector of the `P3` core system: `T_m` constant 19, all other
unknowns zero. -/
def x3 : ℕ → ℚ := fun k => if 3 ≤ k ∧ k < 6 then 19 else 0

theorem periodic_mass_closure_witness :
    satisfiesEqCore P3 x3 ∧ x3 (idxTm 3 0) = x3 (idxTm 3 2) := by
  have hfeas : satisfiesEqCore P3 x3 := by
    intro i hi
    have hi' : i < 3 := hi
    interval_cases i <;>
      refine ⟨?_, ?_, ?_⟩ <;>
        norm_num [airRow, surRow, massRow, Q_air, Q_ia, Q_surface, H_tot,
          idxTair, idxTm, idxTsur, idxQHC, P3, x3]
  exact ⟨hfeas, periodic_mass_closure P3 x3 (by decide) hfeas⟩

/-- C4: for a structured component with component-level U-value `U` and
transmission factor `b`, the aggregate conductance computed by
`_initEnvelop` equals `U * (sum of element areas) * b / 1000` (kW/K), and
the value is invariant under any permutation of the element list. -/
theorem aggregate_conductance_formula (U b : ℚ) (cfgU : Option ℚ)
    (l l' : List EnvElement) (hperm : l.Perm l') :
    compAggH ⟨some U, some b, l⟩ cfgU = U * (l.map parsedArea).sum * b / 1000 ∧
    compAggH ⟨some U, some b, l'⟩ cfgU = compAggH ⟨some U, some b, l⟩ cfgU := by
  constructor
  · simp [compAggH, compTotalArea_eq_sum]
  · simp only [compAggH, Option.getD_some]
    rw [compTotalArea_perm l' l hperm.symm]

/-- Two wall elements for the C4 witness. -/
def wallPair : List EnvElement := [⟨"Wall_1", some 10⟩, ⟨"Wall_2", some 20⟩]

/-- The same elements in the opposite order. -/
def wallPairRev : List EnvElement := [⟨"Wall_2", some 20⟩, ⟨"Wall_1", some 10⟩]

theorem aggregate_conductance_formula_witness :
    compAggH ⟨some 2, some (1 / 2), wallPair⟩ none
        = 2 * ((wallPair.map parsedArea).sum) * (1 / 2) / 1000 ∧
    compAggH ⟨some 2, some (1 / 2), wallPairRev⟩ none
        = compAggH ⟨some 2, some (1 / 2), wallPair⟩ none :=
  aggregate_conductance_formula 2 (1 / 2) none wallPair wallPairRev (by decide)

/-- C9: when any of the DNI, DHI or GHI series is missing from the
weather table, `_calcRadiation` fails with the `RuntimeError` of its
guard; it never zero-fills the missing series and continues. -/
theorem missing_irradiance_fatal (w : WeatherTbl)
    (elems : List (String × ((ℕ → ℚ) × (ℕ → ℚ) × (ℕ → ℚ))))
    (h : w.DNI = none ∨ w.DHI = none ∨ w.GHI = none) :
    calcRadiation w elems =
      Except.error "Weather must include DNI, DHI and GHI series for POA calculations." := by
  rcases w with ⟨Tf, dniO, dhiO, ghiO⟩
  rcases dniO with _ | dni <;> rcases dhiO with _ | dhi <;> rcases ghiO with _ | ghi <;>
    first
      | rfl
      | simp at h

/-- Weather table without a DNI series, for the C9 witness. -/
def weatherNoDNI : WeatherTbl where
  T := fun _ => 10
  DNI := none
  DHI := some (fun _ => 0)
  GHI := some (fun _ => 0)

theorem missing_irradiance_fatal_witness :
    calcRadiation weatherNoDNI [] =
      Except.error "Weather must include DNI, DHI and GHI series for POA calculations." :=
  missing_irradiance_fatal weatherNoDNI [] (Or.inl rfl)

/-- C10: in the legacy flat-key fallback of `_initEnvelop`, a
configuration supplying `A_<Comp>` but no `A_<Comp>_1` parses to a single
element whose area is the constant `100.0`, independent of the value
stored under `A_<Comp>`: the fallback reads `cfg.get(key, 100.0)` where
`key` is the absent numbered key `A_<Comp>_1`. -/
theorem legacy_flat_area_constant (cfg : List (String × ℚ)) (comp : String)
    (hflat : lookupQ cfg ("A_" ++ comp) ≠ none)
    (hnum : lookupQ cfg (areaKey comp 1) = none) :
    legacyElems cfg comp = [⟨comp ++ "_1", 100⟩] := by
  have hscan : legacyNumbered cfg comp 1 (cfg.length + 1) = ([], 1) := by
    simp only [legacyNumbered, hnum]
  unfold legacyElems
  rw [hscan]
  simp [hflat, hnum]

/-- Flat legacy configuration with `A_Walls = 55` and no numbered key. -/
def flatCfg55 : List (String × ℚ) := [("A_Walls", 55)]

theorem legacy_flat_area_constant_witness :
    legacyElems flatCfg55 "Walls" = [⟨"Walls_1", 100⟩] :=
  legacy_flat_area_constant flatCfg55 "Walls" (by decide) (by decide)

/-- The all-zero irradiance series. -/
def zeroSeries : ℕ → ℚ := fun _ => 0

/-- Configuration with one window (area 2 m², glazing 0.5) whose
aggregated conductance is 0.01 kW/K (a 5 W/m²K window of 2 m²), plus one
wall; used for the C2 counterexample and witness. -/
def oneWindowCfg : SolCfg where
  windows := [⟨2, 1 / 2, fun _ => 1, fun _ => 1, fun _ => 1⟩]
  walls := [⟨10, fun _ => 1, fun _ => 1, fun _ => 1⟩]
  roofs := []
  H_windows := 1 / 100
  U_win := 5
  F_f := 3 / 5
  F_w := 1
  F_sh_vert := 1
  F_sh_hor := 1

/-- C2 counterexample: with DNI, DHI and GHI identically zero, the
windows solar-gain series of `oneWindowCfg` is not zero at hour 0 — the
constant thermal-sky-loss term is subtracted even when no irradiance is
collected, so the series equals `-thermal_rad_win` rather than zero. -/
theorem zero_irradiance_window_gain_nonzero :
    bQ_sol_Windows oneWindowCfg zeroSeries zeroSeries zeroSeries 0 = -(99 / 5000) ∧
    bQ_sol_Windows oneWindowCfg zeroSeries zeroSeries zeroSeries 0 ≠ 0 := by
  have h : bQ_sol_Windows oneWindowCfg zeroSeries zeroSeries zeroSeries 0 = -(99 / 5000) := by
    norm_num [bQ_sol_Windows, thermal_rad_win, elemPoa, oneWindowCfg, zeroSeries,
      h_r, R_se, delta_T_sky]
  exact ⟨h, by rw [h]; norm_num⟩

lemma elemPoa_zero (cB cS cG dni dhi ghi : ℕ → ℚ) (i : ℕ)
    (hdni : dni i = 0) (hdhi : dhi i = 0) (hghi : ghi i = 0) :
    elemPoa cB cS cG dni dhi ghi i = 0 := by
  unfold elemPoa
  rw [hdni, hdhi, hghi]
  ring

/-- C2 amended: for a weather series with DNI, DHI and GHI identically
zero, the wall, roof and floor solar-gain series are identically zero,
while the windows series is identically equal to the negated constant
thermal-sky-loss term `-thermal_rad_win` (hence zero only when that term
vanishes, e.g. when there are no windows). -/
theorem zero_irradiance_gains (cfg : SolCfg) (dni dhi ghi : ℕ → ℚ)
    (hdni : ∀ i, dni i = 0) (hdhi : ∀ i, dhi i = 0) (hghi : ∀ i, ghi i = 0) :
    ∀ i, bQ_sol_Walls cfg dni dhi ghi i = 0 ∧
      bQ_sol_Roof cfg dni dhi ghi i = 0 ∧
      bQ_sol_Floor cfg i = 0 ∧
      bQ_sol_Windows cfg dni dhi ghi i = -thermal_rad_win cfg := by
  intro i
  refine ⟨?_, ?_, rfl, ?_⟩
  · apply List.sum_eq_zero
    intro q hq
    rcases List.mem_map.mp hq with ⟨e, _, rfl⟩
    rw [elemPoa_zero e.cB e.cS e.cG dni dhi ghi i (hdni i) (hdhi i) (hghi i)]
    ring
  · apply List.sum_eq_zero
    intro q hq
    rcases List.mem_map.mp hq with ⟨e, _, rfl⟩
    rw [elemPoa_zero e.cB e.cS e.cG dni dhi ghi i (hdni i) (hdhi i) (hghi i)]
    ring
  · unfold bQ_sol_Windows
    have hz : (cfg.windows.map
        (fun w => elemPoa w.cB w.cS w.cG dni dhi ghi i * w.area * w.g * (1 - cfg.F_f) * cfg.F_w)).sum = 0 := by
      apply List.sum_eq_zero
      intro q hq
      rcases List.mem_map.mp hq with ⟨w, _, rfl⟩
      rw [elemPoa_zero w.cB w.cS w.cG dni dhi ghi i (hdni i) (hdhi i) (hghi i)]
      ring
    rw [hz]
    ring

theorem zero_irradiance_gains_witness :
    bQ_sol_Walls oneWindowCfg zeroSeries zeroSeries zeroSeries 0 = 0 ∧
    bQ_sol_Roof oneWindowCfg zeroSeries zeroSeries zeroSeries 0 = 0 ∧
    bQ_sol_Floor oneWindowCfg 0 = 0 ∧
    bQ_sol_Windows oneWindowCfg zeroSeries zeroSeries zeroSeries 0
      = -thermal_rad_win oneWindowCfg :=
  zero_irradiance_gains oneWindowCfg zeroSeries zeroSeries zeroSeries
    (fun _ => rfl) (fun _ => rfl) (fun _ => rfl) 0

/-- Python `dict.get` returns the default when the key is absent from the
class table. -/
lemma classGetD_unknown (table : List (String × ℚ)) (tc : String) (d : ℚ)
    (h : ∀ p ∈ table, p.1 ≠ tc) : classGetD table tc d = d := by
  unfold classGetD
  have hf : table.find? (fun p => p.1 == tc) = none :=
    List.find?_eq_none.mpr (fun p hp => by simpa [beq_iff_eq] using h p hp)
  rw [hf]
  rfl

/-- C8 amended: for any thermal-class string outside the five-entry table,
`_init5R1C` silently substitutes the `.get` defaults — `A_m` multiplier
`2.5` and specific capacity `c_m = 137.5` — and `validate_cfg` performs no
thermal-class check at all (its result is independent of the label), so
an unknown class passes validation and produces parameters. -/
theorem silent_thermal_class_fallback (tc : String) (A_f : ℚ)
    (h1 : tc ≠ "very light") (h2 : tc ≠ "light") (h3 : tc ≠ "medium")
    (h4 : tc ≠ "heavy") (h5 : tc ≠ "very heavy") :
    bA_m A_f tc = A_f * (2.5 : ℚ) ∧ c_m_default tc = (137.5 : ℚ) ∧
    ∀ cfg : VCfg, validate_cfg { cfg with thermalClass := tc } = validate_cfg cfg := by
  have hfa : classGetD bClass_f_a tc 2.5 = 2.5 := by
    apply classGetD_unknown
    intro p hp
    simp only [bClass_f_a, List.mem_cons, List.not_mem_nil, or_false] at hp
    rcases hp with rfl | rfl | rfl | rfl | rfl <;>
      simpa using fun hh => by first
        | exact h1 hh.symm
        | exact h2 hh.symm
        | exact h3 hh.symm
        | exact h4 hh.symm
        | exact h5 hh.symm
  have hlb : classGetD bClass_f_lb tc 137.5 = 137.5 := by
    apply classGetD_unknown
    intro p hp
    simp only [bClass_f_lb, List.mem_cons, List.not_mem_nil, or_false] at hp
    rcases hp with rfl | rfl | rfl | rfl | rfl <;>
      simpa using fun hh => by first
        | exact h1 hh.symm
        | exact h2 hh.symm
        | exact h3 hh.symm
        | exact h4 hh.symm
        | exact h5 hh.symm
  have hub : classGetD bClass_f_ub tc 137.5 = 137.5 := by
    apply classGetD_unknown
    intro p hp
    simp only [bClass_f_ub, List.mem_cons, List.not_mem_nil, or_false] at hp
    rcases hp with rfl | rfl | rfl | rfl | rfl <;>
      simpa using fun hh => by first
        | exact h1 hh.symm
        | exact h2 hh.symm
        | exact h3 hh.symm
        | exact h4 hh.symm
        | exact h5 hh.symm
  refine ⟨?_, ?_, ?_⟩
  · rw [bA_m, hfa]
  · rw [c_m_default, hlb, hub]; norm_num
  · intro cfg; rfl

/-- A structured configuration, valid except for its unknown thermal
class `"granite"`. -/
def graniteCfg : VCfg where
  components := some
    [("Walls", ⟨some 1, []⟩), ("Windows", ⟨some 1, []⟩), ("Roof", ⟨some 1, []⟩),
     ("Floor", ⟨some 1, []⟩), ("Doors", ⟨some 1, []⟩)]
  flat := []
  thermalClass := "granite"
  weatherLen := some 5

/-- C8 counterexample: the unknown thermal class `"granite"` passes
validation (the validator result is the empty issue list) and the 5R1C
derivation still produces parameters, via the silent `.get` defaults:
`A_m = A_f * 2.5` and `c_m = 137.5`. -/
theorem unknown_thermal_class_accepted :
    graniteCfg.thermalClass = "granite" ∧
    graniteCfg.thermalClass ∉ ["very light", "light", "medium", "heavy", "very heavy"] ∧
    validate_cfg graniteCfg = [] ∧
    bA_m 100 graniteCfg.thermalClass = 250 ∧
    c_m_default graniteCfg.thermalClass = (137.5 : ℚ) := by
  have hfa : classGetD bClass_f_a "granite" 2.5 = 2.5 :=
    classGetD_unknown _ _ _ (by decide)
  have hlb : classGetD bClass_f_lb "granite" 137.5 = 137.5 :=
    classGetD_unknown _ _ _ (by decide)
  have hub : classGetD bClass_f_ub "granite" 137.5 = 137.5 :=
    classGetD_unknown _ _ _ (by decide)
  refine ⟨rfl, by decide, by decide, ?_, ?_⟩
  · show bA_m 100 "granite" = 250
    rw [bA_m, hfa]; norm_num
  · show c_m_default "granite" = (137.5 : ℚ)
    rw [c_m_default, hlb, hub]; norm_num

theorem silent_thermal_class_fallback_witness :
    bA_m 100 "granite" = 100 * (2.5 : ℚ) ∧ c_m_default "granite" = (137.5 : ℚ) := by
  have h := silent_thermal_class_fallback "granite" 100
    (by decide) (by decide) (by decide) (by decide) (by decide)
  exact ⟨h.1, h.2.1⟩

/-- All element ids appearing anywhere in the structured component tree. -/
def allElementIds (cfg : VCfg) : List String :=
  match cfg.components with
  | none => []
  | some comps => (comps.map (fun p => p.2.elements.filterMap (fun e => e.id))).flatten

/-- Configuration in which the element id `"dup"` appears in two
different components (Walls and Roof), both of which carry a
component-level U-value. -/
def dupIdCfg : VCfg where
  components := some
    [("Walls", ⟨some 1, [⟨some "dup", some 10, some 1⟩]⟩),
     ("Windows", ⟨some 1, []⟩),
     ("Roof", ⟨some 1, [⟨some "dup", some 10, some 1⟩]⟩),
     ("Floor", ⟨some 1, []⟩),
     ("Doors", ⟨some 1, []⟩)]
  flat := []
  thermalClass := "medium"
  weatherLen := some 5

/-- C6: `validate_cfg` accepts `dupIdCfg` — the issue list is empty even
though the element id `"dup"` occurs twice across different components.
The duplicate-id check of the validator lives inside the branch taken
only when the component-level U of a component is missing, so components that
carry a U-value are never scanned and global id uniqueness is not
enforced for them, contrary to the documented checks of the validator itself. -/
theorem duplicate_id_across_components_accepted :
    (allElementIds dupIdCfg).count "dup" = 2 ∧ validate_cfg dupIdCfg = [] := by
  constructor
  · decide
  · decide

/-- Every validator component step only appends to the issue list. -/
lemma compCheck_fst_append (comps : List (String × VComponent))
    (st : List String × List String) (name : String) :
    ∃ l, (compCheck comps st name).1 = st.1 ++ l := by
  unfold compCheck
  split
  · exact ⟨_, rfl⟩
  · split
    · exact ⟨_, rfl⟩
    · split
      · exact ⟨_, rfl⟩
      · exact ⟨_, rfl⟩

/-- The validator component loop never empties a non-empty issue list. -/
lemma foldl_compCheck_ne_nil (comps : List (String × VComponent))
    (names : List String) (st : List String × List String) (h : st.1 ≠ []) :
    (names.foldl (compCheck comps) st).1 ≠ [] := by
  induction names generalizing st with
  | nil => exact h
  | cons a rest ih =>
    simp only [List.foldl_cons]
    apply ih
    obtain ⟨l, hl⟩ := compCheck_fst_append comps st a
    rw [hl]
    intro hc
    rw [List.append_eq_nil] at hc
    exact h hc.1

/-- The element loop reports at least one issue when some element lacks a
per-element U-value. -/
lemma elemsLoop_ne_nil (comp : String) (es : List VElement)
    (h : ∃ e ∈ es, e.U = none) :
    ∀ idx seen, (elemsLoop comp es idx seen).1 ≠ [] := by
  induction es with
  | nil => simp at h
  | cons e rest ih =>
    intro idx seen
    simp only [elemsLoop]
    rcases h with ⟨f, hf, hfU⟩
    rcases List.mem_cons.mp hf with rfl | hfrest
    · intro hc
      rw [List.append_eq_nil] at hc
      have hne : (elemIssues comp idx f seen).1 ≠ [] := by
        unfold elemIssues
        rw [hfU]
        intro hc2
        rw [List.append_eq_nil, List.append_eq_nil] at hc2
        exact List.cons_ne_nil _ _ hc2.2
      exact hne hc.1
    · intro hc
      rw [List.append_eq_nil] at hc
      exact ih ⟨f, hfrest, hfU⟩ (idx + 1) (elemIssues comp idx e seen).2 hc.2

/-- The validator step for a component lacking both a component-level U
and full per-element U-values reports at least one issue. -/
lemma compCheck_bad_ne_nil (comps : List (String × VComponent))
    (st : List String × List String) (name : String) (c : VComponent)
    (hc : lookupComp comps name = some c) (hU : c.U = none)
    (he : c.elements = [] ∨ ∃ e ∈ c.elements, e.U = none) :
    (compCheck comps st name).1 ≠ [] := by
  unfold compCheck
  simp only [hc, hU]
  rcases he with he | he
  · rw [if_pos (by simp [he, List.isEmpty_iff])]
    intro hcontra
    rw [List.append_eq_nil] at hcontra
    exact List.cons_ne_nil _ _ hcontra.2
  · have hne : ¬ c.elements.isEmpty := by
      rcases he with ⟨e, hee, _⟩
      cases hel : c.elements with
      | nil => rw [hel] at hee; simp at hee
      | cons a l => simp [hel]
    rw [if_neg hne]
    intro hcontra
    rw [List.append_eq_nil] at hcontra
    exact elemsLoop_ne_nil name c.elements he 0 st.2 hcontra.2

/-- The validator loop over the five component names reports at least one
issue when one of them lacks both U forms. -/
lemma foldl_compCheck_bad (comps : List (String × VComponent))
    (names : List String) (st : List String × List String)
    (name : String) (c : VComponent)
    (hmem : name ∈ names) (hc : lookupComp comps name = some c) (hU : c.U = none)
    (he : c.elements = [] ∨ ∃ e ∈ c.elements, e.U = none) :
    (names.foldl (compCheck comps) st).1 ≠ [] := by
  induction names generalizing st with
  | nil => simp at hmem
  | cons a rest ih =>
    simp only [List.foldl_cons]
    rcases List.mem_cons.mp hmem with rfl | hmem'
    · exact foldl_compCheck_ne_nil comps rest _ (compCheck_bad_ne_nil comps st name c hc hU he)
    · exact ih _ hmem'

/-- C7: for any configuration whose structured tree contains one of the
validated envelope components (Walls, Windows, Roof, Floor, Doors) with
neither a component-level U-value nor full per-element U-values, the
validator reports at least one issue and the `run_model` entry point
fails with a configuration error before any envelope model is built —
the silent `U = 0.0` default of `_initEnvelop` is never reached. -/
theorem missing_U_rejected (cfg : VCfg) (comps : List (String × VComponent))
    (name : String) (c : VComponent)
    (hcomps : cfg.components = some comps)
    (hname : name ∈ validatedComps)
    (hc : lookupComp comps name = some c)
    (hU : c.U = none)
    (he : c.elements = [] ∨ ∃ e ∈ c.elements, e.U = none) :
    validate_cfg cfg ≠ [] ∧ ∀ u, run_model_gate cfg ≠ Except.ok u := by
  have hval : validate_cfg cfg ≠ [] := by
    unfold validate_cfg
    rw [hcomps]
    intro hcontra
    rw [List.append_eq_nil] at hcontra
    exact foldl_compCheck_bad comps validatedComps ([], []) name c hname hc hU he hcontra.1
  refine ⟨hval, ?_⟩
  intro u
  unfold run_model_gate
  rw [if_neg (by simpa [List.isEmpty_iff] using hval)]
  exact fun hcontra => Except.noConfusion hcontra

/-- Configuration whose Walls component lacks both a component-level U
and elements (hence also per-element U-values). -/
def wallsNoUCfg : VCfg where
  components := some
    [("Walls", ⟨none, []⟩), ("Windows", ⟨some 1, []⟩), ("Roof", ⟨some 1, []⟩),
     ("Floor", ⟨some 1, []⟩), ("Doors", ⟨some 1, []⟩)]
  flat := []
  thermalClass := "medium"
  weatherLen := some 5

theorem missing_U_rejected_witness :
    validate_cfg wallsNoUCfg ≠ [] ∧ run_model_gate wallsNoUCfg ≠ Except.ok () := by
  have h := missing_U_rejected wallsNoUCfg
    [("Walls", ⟨none, []⟩), ("Windows", ⟨some 1, []⟩), ("Roof", ⟨some 1, []⟩),
     ("Floor", ⟨some 1, []⟩), ("Doors", ⟨some 1, []⟩)]
    "Walls" ⟨none, []⟩ rfl (by decide) (by decide) rfl (Or.inl rfl)
  exact ⟨h.1, h.2 ()⟩

/-- C5: whenever the temperatures of the fixed-setpoint solution lie inside the
bounded-mode ranges (the assembled inequality rows hold for it), the
fixed-setpoint solution is feasible for the bounded problem — its shared
equality rows are a subset of the fixed system — so the total `Q_HC` of an
optimal bounded solve is at most the total `Q_HC` of the fixed-setpoint
solve. -/
theorem bounded_no_worse_than_fixed (P : SysParams) (xf xb : ℕ → ℚ)
    (hfix : satisfiesEqFixed P xf)
    (hbnd : ineqRows P xf)
    (hopt : optimalBounded P xb) :
    objectiveQHC P xb ≤ objectiveQHC P xf :=
  hopt.2 xf ⟨hfix.1, hbnd⟩

/-- Two-hour run for the C5 witness: every conductance zero, heating
setpoint 21 °C; every feasible point then has zero `Q_HC`. -/
def P5 : SysParams where
  n := 2
  H_walls := 0
  H_roofs := 0
  H_floors := 0
  H_windows := 0
  H_doors := 0
  H_ve := 0
  H_is := 0
  H_ms := 0
  C_m := 1
  step := 1
  T_set := 21
  Q_ig := fun _ => 0
  elecLoad := fun _ => 0
  occ_nothome := fun _ => 0
  occ_sleeping := fun _ => 0
  Q_sol_win := fun _ => 0
  Q_sol_opaque := fun _ => 0
  T_e := fun _ => 0

/-- Fixed-setpoint solution of the `P5` system. -/
def xf5 : ℕ → ℚ := fun k => if k < 6 then 21 else 0

/-- Bounded-mode solution of the `P5` system (surface node at 20 °C). -/
def xb5 : ℕ → ℚ := fun k => if k < 4 then 21 else if k < 6 then 20 else 0

theorem bounded_no_worse_than_fixed_witness :
    satisfiesEqFixed P5 xf5 ∧ ineqRows P5 xf5 ∧ optimalBounded P5 xb5 ∧
      objectiveQHC P5 xb5 ≤ objectiveQHC P5 xf5 := by
  have hfix : satisfiesEqFixed P5 xf5 := by
    constructor
    · intro i hi
      have hi' : i < 2 := hi
      interval_cases i <;>
        refine ⟨?_, ?_, ?_⟩ <;>
          norm_num [airRow, surRow, massRow, Q_air, Q_ia, Q_surface, H_tot,
            idxTair, idxTm, idxTsur, idxQHC, P5, xf5]
    · intro i hi
      have hi' : i < 2 := hi
      interval_cases i <;>
        norm_num [hvacRow, H_tot, idxTair, idxQHC, P5, xf5]
  have hbndf : ineqRows P5 xf5 := by
    intro i hi
    have hi' : i < 2 := hi
    interval_cases i <;>
      refine ⟨?_, ?_, ?_, ?_, ?_, ?_⟩ <;>
        norm_num [idxTair, idxTm, idxTsur, P5, xf5]
  have hfeasb : feasibleBounded P5 xb5 := by
    constructor
    · intro i hi
      have hi' : i < 2 := hi
      interval_cases i <;>
        refine ⟨?_, ?_, ?_⟩ <;>
          norm_num [airRow, surRow, massRow, Q_air, Q_ia, Q_surface, H_tot,
            idxTair, idxTm, idxTsur, idxQHC, P5, xb5]
    · intro i hi
      have hi' : i < 2 := hi
      interval_cases i <;>
        refine ⟨?_, ?_, ?_, ?_, ?_, ?_⟩ <;>
          norm_num [idxTair, idxTm, idxTsur, P5, xb5]
  have hopt : optimalBounded P5 xb5 := by
    refine ⟨hfeasb, ?_⟩
    intro y hy
    have h0 := (hy.1 0 (by decide)).1
    have h1 := (hy.1 1 (by decide)).1
    rw [airRow] at h0 h1
    norm_num [Q_air, Q_ia, idxTair, idxTsur, idxQHC, P5] at h0 h1
    have hob : objectiveQHC P5 xb5 = 0 := by
      norm_num [objectiveQHC, idxQHC, P5, Finset.sum_range_succ, xb5]
    have hoy : objectiveQHC P5 y = 0 := by
      norm_num [objectiveQHC, idxQHC, P5, Finset.sum_range_succ, h0, h1]
    rw [hob, hoy]
  exact ⟨hfix, hbndf, hopt, bounded_no_worse_than_fixed P5 xf5 xb5 hfix hbndf hopt⟩

end Buem
